import Mathlib

/-!
Shallow embedding of the provider configuration layer of the repository:
the ElevenLabs provider settings component (computed getters and setters over
the persisted `providers` record), the reset handler, the LLM store
(`setupOpenAI` / `stream` / `models`), and a spec-modelled instance cache.
Numbers are modelled as rationals, optional JS object fields as `Option`,
and JS property assignment on a possibly-missing object as `Except` so that
a missing-object failure is observable.
-/

namespace Airi

/-- Nested `voiceSettings` object of a persisted provider record. -/
structure VoiceSettings where
  similarityBoost : Option Rat
  stability : Option Rat
  speed : Option Rat
  style : Option Rat
  useSpeakerBoost : Option Bool
deriving DecidableEq, Repr

/-- Persisted provider record `providers[providerId]`. The record-level
`style` field exists because the style setter in the source assigns
`providers[providerId].style` (not `voiceSettings.style`). -/
structure ProviderRecord where
  apiKey : Option String
  baseUrl : Option String
  voiceSettings : Option VoiceSettings
  style : Option Rat
deriving DecidableEq, Repr

/-- Shape of `providerMetadata.defaultOptions` (the code reads only
`defaultOptions?.baseUrl`; the reset handler spreads the whole object). -/
structure DefaultOptions where
  apiKey : Option String
  baseUrl : Option String
  voiceSettings : Option VoiceSettings
deriving DecidableEq, Repr

/-- Provider metadata as returned by `getProviderMetadata(providerId)`. -/
structure ProviderMetadata where
  localizedName : String
  defaultOptions : Option DefaultOptions
deriving DecidableEq, Repr

/-- Component and store state: the persisted `providers` map, the metadata
lookup, and unrelated component-local refs (kept so that independence of
resolution from them is expressible). -/
structure StoreState where
  providers : String → Option ProviderRecord
  metadata : String → Option ProviderMetadata
  testText : String
  audioUrl : String
  errorMessage : String
  isGenerating : Bool

/-- The fixed provider id of the component. -/
def providerId : String := "elevenlabs"

/-- JS `a || b` on an optional string: an absent or empty string falls
through to the default. -/
def jsOrString (v : Option String) (d : String) : String :=
  match v with
  | some str => if str = "" then d else str
  | none => d

/-- Getter `providers.value[providerId]?.apiKey || ''`. -/
def getApiKey (s : StoreState) : String :=
  jsOrString ((s.providers providerId).bind ProviderRecord.apiKey) ""

/-- `providerMetadata.value?.defaultOptions?.baseUrl || ''`. -/
def defaultBaseUrl (s : StoreState) : String :=
  jsOrString (((s.metadata providerId).bind ProviderMetadata.defaultOptions).bind
    DefaultOptions.baseUrl) ""

/-- Getter `providers.value[providerId]?.baseUrl || providerMetadata.value?.defaultOptions?.baseUrl || ''`. -/
def getBaseUrl (s : StoreState) : String :=
  jsOrString ((s.providers providerId).bind ProviderRecord.baseUrl) (defaultBaseUrl s)

/-- `providers.value[providerId]?.voiceSettings?.<f>`. -/
def voiceField {α : Type} (s : StoreState) (f : VoiceSettings → Option α) : Option α :=
  ((s.providers providerId).bind ProviderRecord.voiceSettings).bind f

/-- Getter `...voiceSettings?.similarityBoost ?? 0.75`. -/
def getSimilarityBoost (s : StoreState) : Rat :=
  (voiceField s VoiceSettings.similarityBoost).getD 0.75

/-- Getter `...voiceSettings?.stability ?? 0.5`. -/
def getStability (s : StoreState) : Rat :=
  (voiceField s VoiceSettings.stability).getD 0.5

/-- Getter `...voiceSettings?.speed ?? 1.0`. -/
def getSpeed (s : StoreState) : Rat :=
  (voiceField s VoiceSettings.speed).getD 1

/-- Getter `...voiceSettings?.style ?? 0`. -/
def getStyle (s : StoreState) : Rat :=
  (voiceField s VoiceSettings.style).getD 0

/-- Getter `...voiceSettings?.useSpeakerBoost !== false`. -/
def getUseSpeakerBoost (s : StoreState) : Bool :=
  match voiceField s VoiceSettings.useSpeakerBoost with
  | some false => false
  | _ => true

/-- The empty JS object `{}` assigned by the setter guards. -/
def emptyVoiceSettings : VoiceSettings := ⟨none, none, none, none, none⟩

/-- The empty JS object `{}` assigned when `providers[providerId]` is absent. -/
def emptyRecord : ProviderRecord := ⟨none, none, none, none⟩

/-- Replace the entry of `providers` at `providerId`. -/
def setProviderRecord (s : StoreState) (r : Option ProviderRecord) : StoreState :=
  { s with providers := fun k => if k = providerId then r else s.providers k }

/-- Guard `if (!providers.value[providerId]) providers.value[providerId] = \x7b\x7d`. -/
def ensureRecord (s : StoreState) : StoreState :=
  match s.providers providerId with
  | none => setProviderRecord s (some emptyRecord)
  | some _ => s

/-- JS runtime failure (property assignment on a missing object). -/
inductive JsError where
  | typeError
deriving DecidableEq, Repr

/-- Guard `if (!providers.value[providerId].voiceSettings) ... = \x7b\x7d`; reading
`providers.value[providerId]` without optional chaining fails when the record
is absent. -/
def ensureVoiceSettings (s : StoreState) : Except JsError StoreState :=
  match s.providers providerId with
  | none => .error .typeError
  | some r =>
    match r.voiceSettings with
    | none => .ok (setProviderRecord s (some { r with voiceSettings := some emptyVoiceSettings }))
    | some _ => .ok s

/-- Assignment `providers.value[providerId].apiKey = value`. -/
def assignApiKey (v : String) (s : StoreState) : Except JsError StoreState :=
  match s.providers providerId with
  | none => .error .typeError
  | some r => .ok (setProviderRecord s (some { r with apiKey := some v }))

/-- Setter of the `apiKey` computed property. -/
def setApiKey (v : String) (s : StoreState) : Except JsError StoreState :=
  assignApiKey v (ensureRecord s)

/-- Assignment `providers.value[providerId].baseUrl = value`. -/
def assignBaseUrl (v : String) (s : StoreState) : Except JsError StoreState :=
  match s.providers providerId with
  | none => .error .typeError
  | some r => .ok (setProviderRecord s (some { r with baseUrl := some v }))

/-- Setter of the `baseUrl` computed property. -/
def setBaseUrl (v : String) (s : StoreState) : Except JsError StoreState :=
  assignBaseUrl v (ensureRecord s)

/-- Assignment `providers.value[providerId].voiceSettings.similarityBoost = value`. -/
def assignSimilarityBoost (v : Rat) (s : StoreState) : Except JsError StoreState :=
  match s.providers providerId with
  | none => .error .typeError
  | some r =>
    match r.voiceSettings with
    | none => .error .typeError
    | some vs =>
      .ok (setProviderRecord s
        (some { r with voiceSettings := some { vs with similarityBoost := some v } }))

/-- Setter of the `similarityBoost` computed property. -/
def setSimilarityBoost (v : Rat) (s : StoreState) : Except JsError StoreState :=
  (ensureVoiceSettings (ensureRecord s)).bind (assignSimilarityBoost v)

/-- Assignment `providers.value[providerId].voiceSettings.stability = value`. -/
def assignStability (v : Rat) (s : StoreState) : Except JsError StoreState :=
  match s.providers providerId with
  | none => .error .typeError
  | some r =>
    match r.voiceSettings with
    | none => .error .typeError
    | some vs =>
      .ok (setProviderRecord s
        (some { r with voiceSettings := some { vs with stability := some v } }))

/-- Setter of the `stability` computed property. -/
def setStability (v : Rat) (s : StoreState) : Except JsError StoreState :=
  (ensureVoiceSettings (ensureRecord s)).bind (assignStability v)

/-- Assignment `providers.value[providerId].voiceSettings.speed = value`. -/
def assignSpeed (v : Rat) (s : StoreState) : Except JsError StoreState :=
  match s.providers providerId with
  | none => .error .typeError
  | some r =>
    match r.voiceSettings with
    | none => .error .typeError
    | some vs =>
      .ok (setProviderRecord s
        (some { r with voiceSettings := some { vs with speed := some v } }))

/-- Setter of the `speed` computed property. -/
def setSpeed (v : Rat) (s : StoreState) : Except JsError StoreState :=
  (ensureVoiceSettings (ensureRecord s)).bind (assignSpeed v)

/-- Assignment `providers.value[providerId].style = value` — note: the source
assigns the record-level `style` field, not `voiceSettings.style`. -/
def assignStyleTopLevel (v : Rat) (s : StoreState) : Except JsError StoreState :=
  match s.providers providerId with
  | none => .error .typeError
  | some r => .ok (setProviderRecord s (some { r with style := some v }))

/-- Setter of the `style` computed property (guards create `voiceSettings`,
then the assignment goes to the record-level `style` field, as in the source). -/
def setStyle (v : Rat) (s : StoreState) : Except JsError StoreState :=
  (ensureVoiceSettings (ensureRecord s)).bind (assignStyleTopLevel v)

/-- Assignment `providers.value[providerId].voiceSettings.useSpeakerBoost = value`. -/
def assignUseSpeakerBoost (v : Bool) (s : StoreState) : Except JsError StoreState :=
  match s.providers providerId with
  | none => .error .typeError
  | some r =>
    match r.voiceSettings with
    | none => .error .typeError
    | some vs =>
      .ok (setProviderRecord s
        (some { r with voiceSettings := some { vs with useSpeakerBoost := some v } }))

/-- Setter of the `useSpeakerBoost` computed property. -/
def setUseSpeakerBoost (v : Bool) (s : StoreState) : Except JsError StoreState :=
  (ensureVoiceSettings (ensureRecord s)).bind (assignUseSpeakerBoost v)

/-- JS spread `\x7b ...defaultOptions \x7d`: copies the fields of
`defaultOptions` into a fresh record; spreading `undefined` gives `\x7b\x7d`. -/
def spreadDefaults (d : Option DefaultOptions) : ProviderRecord :=
  match d with
  | none => emptyRecord
  | some o => { apiKey := o.apiKey, baseUrl := o.baseUrl,
                voiceSettings := o.voiceSettings, style := none }

/-- `handleResetVoiceSettings`: replaces the whole provider record with a
spread copy of `providerMetadata?.defaultOptions`. -/
def handleResetVoiceSettings (s : StoreState) : StoreState :=
  setProviderRecord s
    (some (spreadDefaults ((s.metadata providerId).bind ProviderMetadata.defaultOptions)))

/-- The effective (resolved) configuration: the tuple of all computed getters. -/
structure EffectiveConfig where
  apiKey : String
  baseUrl : String
  similarityBoost : Rat
  stability : Rat
  speed : Rat
  style : Rat
  useSpeakerBoost : Bool
deriving DecidableEq, Repr

/-- Resolve the persisted record and the metadata defaults to the effective
configuration, by evaluating every computed getter. -/
def resolveEffective (s : StoreState) : EffectiveConfig :=
  ⟨getApiKey s, getBaseUrl s, getSimilarityBoost s, getStability s,
   getSpeed s, getStyle s, getUseSpeakerBoost s⟩

/-- `OpenAIProviderSettings` as far as this layer inspects them. -/
structure OpenAISettings where
  apiKey : Option String
  baseUrl : Option String
deriving DecidableEq, Repr

/-- A constructed OpenAI client object (`new OpenAI(...)` / `createOpenAI(...)`). -/
structure OpenAIClient where
  settings : OpenAISettings
  allowBrowser : Bool
deriving DecidableEq, Repr

/-- The `useLLM` store state: the two refs, both starting out unset. -/
structure LLMState where
  openAI : Option OpenAIClient
  openAIProvider : Option OpenAIClient
deriving DecidableEq, Repr

/-- Fresh store state: `ref<OpenAI>()` and `ref<OpenAIProvider>()`. -/
def llmInitialState : LLMState := ⟨none, none⟩

/-- `setupOpenAI(options)`: overwrites both refs with freshly constructed
clients. -/
def setupOpenAI (o : OpenAISettings) (_s : LLMState) : LLMState :=
  { openAI := some ⟨o, true⟩, openAIProvider := some ⟨o, false⟩ }

/-- Outcome of the async `stream` function: a rejected promise carrying a
thrown `Error`, or delegation to the external `streamText` call. -/
inductive StreamOutcome where
  | thrown (msg : String)
  | streamed (model : String) (content : String)
deriving DecidableEq, Repr

/-- `stream(model, content)`: throws when `openAIProvider` was never set up. -/
def stream (s : LLMState) (model content : String) : StreamOutcome :=
  match s.openAIProvider with
  | none => .thrown "OpenAI not initialized"
  | some _ => .streamed model content

/-- Outcome of the async `models` function. -/
inductive ModelsOutcome where
  | thrown (msg : String)
  | listed
deriving DecidableEq, Repr

/-- `models()`: throws when `openAI` was never set up. -/
def models (s : LLMState) : ModelsOutcome :=
  match s.openAI with
  | none => .thrown "OpenAI not initialized"
  | some _ => .listed

/-- Modelled from the spec: the Instance Cache state of §4.4
(`getProviderInstance` and the providers store are not among the given source
files). `counter` supplies fresh instance identities; `cached` holds the
fingerprint (the effective configuration itself) and the identity of the one
live instance. -/
structure CacheState where
  counter : Nat
  cached : Option (EffectiveConfig × Nat)
deriving DecidableEq, Repr

/-- Cold cache. -/
def cacheInitialState : CacheState := ⟨0, none⟩

/-- Modelled from the spec: `getInstance(providerId)` of §4.4 — resolve the
effective configuration, fail NotConfigured (`none`) when `apiKey` is unset,
return the cached instance on a fingerprint match, otherwise construct a
fresh instance and replace the cached entry. -/
def getInstance (s : StoreState) (c : CacheState) : Option Nat × CacheState :=
  let eff := resolveEffective s
  if eff.apiKey = "" then (none, c)
  else
    match c.cached with
    | some (fp, inst) =>
      if fp = eff then (some inst, c)
      else (some c.counter, ⟨c.counter + 1, some (eff, c.counter)⟩)
    | none => (some c.counter, ⟨c.counter + 1, some (eff, c.counter)⟩)

/-- Modelled from the spec: every Configuration Store mutation for the
provider id triggers an Instance Cache invalidation signal (§4.2, §4.4). -/
def invalidate (c : CacheState) : CacheState := { c with cached := none }

/-- A cache state is well formed when the cached instance identity was drawn
from the counter. -/
def CacheWF (c : CacheState) : Prop :=
  ∀ fp i, c.cached = some (fp, i) → i < c.counter

/-- Outcome of `generateTestSpeech`: early return on blank input, early
return (after `console.error`) when the provider instance is unavailable, or
delegation to the external `generateSpeech` call with the merged voice
settings. -/
inductive SpeechOutcome where
  | emptyInput
  | noProvider
  | generated (stability similarityBoost speed style : Rat)
      (useSpeakerBoost : Bool) (input : String)
deriving DecidableEq, Repr

/-- JS `String.prototype.trim()`: strip whitespace from both ends. -/
def jsTrim (s : String) : String :=
  ⟨((s.data.dropWhile Char.isWhitespace).reverse.dropWhile Char.isWhitespace).reverse⟩

/-- `generateTestSpeech()`: guard on blank `testText`, obtain the provider
instance, bail out when it is unavailable, otherwise invoke speech generation
with the resolved voice settings. -/
def generateTestSpeech (s : StoreState) (inst : Option Nat) : SpeechOutcome :=
  if jsTrim s.testText = "" then .emptyInput
  else
    match inst with
    | none => .noProvider
    | some _ =>
      .generated (getStability s) (getSimilarityBoost s) (getSpeed s) (getStyle s)
        (getUseSpeakerBoost s) s.testText

/-- Build a store state holding one provider record and one metadata entry
under the fixed provider id. -/
def mkState (r : Option ProviderRecord) (m : Option ProviderMetadata)
    (txt : String) : StoreState :=
  { providers := fun k => if k = providerId then r else none,
    metadata := fun k => if k = providerId then m else none,
    testText := txt, audioUrl := "", errorMessage := "", isGenerating := false }

/-- Voice settings supplying only `stability`. -/
def vsOnlyStability : VoiceSettings :=
  { similarityBoost := none, stability := some 0.8, speed := none,
    style := none, useSpeakerBoost := none }

/-- Record persisting only `voiceSettings.stability = 0.8`. -/
def recOnlyStability : ProviderRecord :=
  { apiKey := none, baseUrl := none, voiceSettings := some vsOnlyStability, style := none }

/-- State for the per-field merge scenario. -/
def stateOnlyStability : StoreState := mkState (some recOnlyStability) none "Hello"

/-- Voice settings persisting an out-of-range `speed = 5.0`. -/
def vsFastSpeed : VoiceSettings :=
  { similarityBoost := none, stability := none, speed := some 5,
    style := none, useSpeakerBoost := none }

/-- Record persisting `speed = 5.0`. -/
def recFastSpeed : ProviderRecord :=
  { apiKey := none, baseUrl := none, voiceSettings := some vsFastSpeed, style := none }

/-- State for the clamping scenario. -/
def stateFastSpeed : StoreState := mkState (some recFastSpeed) none "Hello"

/-- Descriptor defaults for the reset scenario: a default endpoint, no
default credential. -/
def resetDefaults : DefaultOptions :=
  { apiKey := none, baseUrl := some "https://api.elevenlabs.io/", voiceSettings := none }

/-- Metadata for the reset scenario. -/
def resetMetadata : ProviderMetadata :=
  { localizedName := "ElevenLabs", defaultOptions := some resetDefaults }

/-- Voice settings persisting `stability = 0.9`. -/
def vsResetScenario : VoiceSettings :=
  { similarityBoost := none, stability := some 0.9, speed := none,
    style := none, useSpeakerBoost := none }

/-- Record persisting `apiKey = "k"` and `voiceSettings.stability = 0.9`. -/
def recResetScenario : ProviderRecord :=
  { apiKey := some "k", baseUrl := none, voiceSettings := some vsResetScenario, style := none }

/-- State for the reset scenario. -/
def stateResetScenario : StoreState :=
  mkState (some recResetScenario) (some resetMetadata) "Hello"

/-- Claim C1: when the persisted nested voice-settings object supplies only
some fields, resolution merges per-field — a supplied `stability` is used and
an unsupplied `speed` resolves to its descriptor default `1.0` rather than
being erased. -/
theorem voiceSettings_merge_per_field (s : StoreState) (r : ProviderRecord)
    (vs : VoiceSettings) (q : Rat)
    (hr : s.providers providerId = some r) (hvs : r.voiceSettings = some vs)
    (hst : vs.stability = some q) (hsp : vs.speed = none) :
    getStability s = q ∧ getSpeed s = 1 := by
  unfold getStability getSpeed voiceField
  rw [hr]
  simp [Option.bind, hvs, hst, hsp]

/-- Witness for C1: persisted `\x7bstability := 0.8\x7d` resolves to effective
`\x7bstability := 0.8, speed := 1.0\x7d`. -/
theorem voiceSettings_merge_per_field_witness :
    getStability stateOnlyStability = 0.8 ∧ getSpeed stateOnlyStability = 1 :=
  voiceSettings_merge_per_field stateOnlyStability recOnlyStability vsOnlyStability 0.8
    rfl rfl rfl rfl

/-- Counterexample to C2: a persisted `speed = 5.0` resolves to effective
`speed = 5.0`, not to the claimed clamped bound `1.2` — resolution performs
no clamping. -/
theorem speed_not_clamped_counterexample :
    getSpeed stateFastSpeed = 5 ∧ getSpeed stateFastSpeed ≠ 1.2 := by
  refine ⟨rfl, ?_⟩
  rw [show getSpeed stateFastSpeed = (5 : Rat) from rfl]
  norm_num

/-- Claim C2 (amended): resolution returns a persisted numeric voice value
unchanged, even when it lies outside the slider bounds `[0.7, 1.2]`; the
bounds live only on the slider input component, not in resolution. -/
theorem speed_resolution_unclamped (s : StoreState) (r : ProviderRecord)
    (vs : VoiceSettings) (q : Rat)
    (hr : s.providers providerId = some r) (hvs : r.voiceSettings = some vs)
    (hsp : vs.speed = some q) :
    getSpeed s = q := by
  unfold getSpeed voiceField
  rw [hr]
  simp [Option.bind, hvs, hsp]

/-- Witness for the amended C2: the out-of-range persisted `speed = 5.0`
resolves to `5.0`. -/
theorem speed_resolution_unclamped_witness :
    getSpeed stateFastSpeed = 5 :=
  speed_resolution_unclamped stateFastSpeed recFastSpeed vsFastSpeed 5 rfl rfl rfl

/-- Evaluation of C3 at its failing input: persisting `apiKey = "k"` and
`voiceSettings.stability = 0.9`, then running `handleResetVoiceSettings`,
restores `stability` to the default `0.5` but also erases the credential —
`apiKey` resolves to `""` instead of remaining `"k"`, because the handler
replaces the entire record with a spread of `defaultOptions`. -/
theorem reset_erases_credential :
    getApiKey stateResetScenario = "k" ∧
    getStability stateResetScenario = 0.9 ∧
    getStability (handleResetVoiceSettings stateResetScenario) = 0.5 ∧
    getApiKey (handleResetVoiceSettings stateResetScenario) = "" :=
  ⟨rfl, rfl, rfl, rfl⟩

/-- State for the unavailable-provider speech scenario: nothing configured,
non-blank test text. -/
def stateUnconfiguredSpeech : StoreState := mkState none none "Hello"

/-- Counterexample to C4: with the client refs unset (the state in which
`apiKey` was never supplied and `setupOpenAI` never ran), `stream` and
`models` fail by THROWING `Error("OpenAI not initialized")` — a rejected
promise — not by returning a NotConfigured result. -/
theorem stream_throws_counterexample :
    stream llmInitialState "gpt-4o-mini" "Hello" = .thrown "OpenAI not initialized" ∧
    models llmInitialState = .thrown "OpenAI not initialized" := ⟨rfl, rfl⟩

/-- Claim C4 (amended): the speech test path returns early with no client
constructed when the provider instance is unavailable, but the LLM store
`stream` and `models` functions throw `Error("OpenAI not initialized")`
when their client refs are unset, rather than returning a NotConfigured
value. -/
theorem notConfigured_failure_modes (ls : LLMState) (s : StoreState) (m c : String)
    (hp : ls.openAIProvider = none) (ha : ls.openAI = none)
    (ht : jsTrim s.testText ≠ "") :
    stream ls m c = .thrown "OpenAI not initialized" ∧
    models ls = .thrown "OpenAI not initialized" ∧
    generateTestSpeech s none = .noProvider := by
  unfold stream models generateTestSpeech
  rw [hp, ha]
  simp [ht]

/-- Witness for the amended C4 at the fresh LLM store state and an
unconfigured provider state with non-blank test text. -/
theorem notConfigured_failure_modes_witness :
    stream llmInitialState "gpt-4o-mini" "Hello" = .thrown "OpenAI not initialized" ∧
    models llmInitialState = .thrown "OpenAI not initialized" ∧
    generateTestSpeech stateUnconfiguredSpeech none = .noProvider :=
  notConfigured_failure_modes llmInitialState stateUnconfiguredSpeech "gpt-4o-mini" "Hello"
    rfl rfl (by decide)

/-- The resolution priority exactly as the claim words it: the persisted
override when the field is present, otherwise the descriptor default when
present, otherwise the empty string. Stated from the claim for comparison
with the source getter. -/
def baseUrlClaimPriority (persisted dflt : Option String) : String :=
  match persisted with
  | some b => b
  | none =>
    match dflt with
    | some d => d
    | none => ""

/-- Record persisting an explicitly empty `baseUrl` override. -/
def recEmptyBaseUrl : ProviderRecord :=
  { apiKey := none, baseUrl := some "", voiceSettings := none, style := none }

/-- Metadata with a default endpoint for the baseUrl scenario. -/
def metadataDefaultUrl : ProviderMetadata :=
  { localizedName := "ElevenLabs",
    defaultOptions :=
      some { apiKey := none, baseUrl := some "https://api.elevenlabs.io/v1", voiceSettings := none } }

/-- State for the baseUrl priority scenario. -/
def stateEmptyBaseUrl : StoreState := mkState (some recEmptyBaseUrl) (some metadataDefaultUrl) ""

/-- Counterexample to C7: with a persisted (present but empty) `baseUrl`
override and a descriptor default, the getter falls through to the default
(JS `||` treats the empty string as absent), so the effective value differs
from the exact priority the claim states. -/
theorem baseUrl_priority_counterexample :
    getBaseUrl stateEmptyBaseUrl = "https://api.elevenlabs.io/v1" ∧
    baseUrlClaimPriority ((stateEmptyBaseUrl.providers providerId).bind ProviderRecord.baseUrl)
      (((stateEmptyBaseUrl.metadata providerId).bind ProviderMetadata.defaultOptions).bind
        DefaultOptions.baseUrl) = "" ∧
    getBaseUrl stateEmptyBaseUrl ≠
      baseUrlClaimPriority ((stateEmptyBaseUrl.providers providerId).bind ProviderRecord.baseUrl)
        (((stateEmptyBaseUrl.metadata providerId).bind ProviderMetadata.defaultOptions).bind
          DefaultOptions.baseUrl) := by
  refine ⟨rfl, rfl, ?_⟩
  intro h
  exact absurd h (by decide)

/-- Claim C7 (amended): the effective `baseUrl` is the persisted override
when present and non-empty; otherwise the descriptor default chain
`defaultBaseUrl` (the descriptor `defaultOptions.baseUrl` when present and
non-empty, otherwise the empty string). An empty persisted override is
treated as absent. -/
theorem baseUrl_priority_amended (s : StoreState) :
    (∀ r b, s.providers providerId = some r → r.baseUrl = some b → b ≠ "" →
      getBaseUrl s = b) ∧
    (∀ r, s.providers providerId = some r → (r.baseUrl = none ∨ r.baseUrl = some "") →
      getBaseUrl s = defaultBaseUrl s) ∧
    (s.providers providerId = none → getBaseUrl s = defaultBaseUrl s) ∧
    (∀ d, (((s.metadata providerId).bind ProviderMetadata.defaultOptions).bind
        DefaultOptions.baseUrl) = some d → d ≠ "" → defaultBaseUrl s = d) ∧
    ((((s.metadata providerId).bind ProviderMetadata.defaultOptions).bind
        DefaultOptions.baseUrl) = none → defaultBaseUrl s = "") := by
  refine ⟨?_, ?_, ?_, ?_, ?_⟩
  · intro r b hr hb hne
    unfold getBaseUrl
    rw [hr]
    simp [Option.bind, jsOrString, hb, hne]
  · intro r hr hb
    unfold getBaseUrl
    rw [hr]
    rcases hb with hb | hb <;> simp [Option.bind, jsOrString, hb]
  · intro hr
    unfold getBaseUrl
    rw [hr]
    simp [Option.bind, jsOrString]
  · intro d hd hne
    unfold defaultBaseUrl
    rw [hd]
    simp [jsOrString, hne]
  · intro hd
    unfold defaultBaseUrl
    rw [hd]
    simp [jsOrString]

/-- Witness for the amended C7: the empty persisted override resolves to the
descriptor default endpoint. -/
theorem baseUrl_priority_amended_witness :
    getBaseUrl stateEmptyBaseUrl = defaultBaseUrl stateEmptyBaseUrl ∧
    defaultBaseUrl stateEmptyBaseUrl = "https://api.elevenlabs.io/v1" :=
  ⟨(baseUrl_priority_amended stateEmptyBaseUrl).2.1 recEmptyBaseUrl rfl (Or.inr rfl),
   (baseUrl_priority_amended stateEmptyBaseUrl).2.2.2.1 "https://api.elevenlabs.io/v1" rfl
     (by decide)⟩

/-- Claim C8: resolution is a pure, deterministic function of the persisted
provider record and the descriptor metadata — two states that agree on those
two inputs resolve to the same effective configuration, regardless of any
other state (test text, audio url, error message, generation flag, records of
other providers). -/
theorem resolve_deterministic (s1 s2 : StoreState)
    (hp : s1.providers providerId = s2.providers providerId)
    (hm : s1.metadata providerId = s2.metadata providerId) :
    resolveEffective s1 = resolveEffective s2 := by
  unfold resolveEffective getApiKey getBaseUrl defaultBaseUrl getSimilarityBoost
    getStability getSpeed getStyle getUseSpeakerBoost voiceField
  rw [hp, hm]

/-- A configured state used by several concrete scenarios. -/
def stateConfigured : StoreState :=
  mkState (some { apiKey := some "k", baseUrl := none, voiceSettings := none, style := none })
    (some resetMetadata) "Hello"

/-- The same persisted record and metadata as `stateConfigured`, but with
different component-local state. -/
def stateConfiguredAlt : StoreState :=
  { providers := fun k =>
      if k = providerId
        then some { apiKey := some "k", baseUrl := none, voiceSettings := none, style := none }
        else none,
    metadata := fun k => if k = providerId then some resetMetadata else none,
    testText := "Different text", audioUrl := "blob:local", errorMessage := "old error",
    isGenerating := true }

/-- Witness for C8: two states agreeing on the persisted record and the
metadata, yet differing in every other component, resolve identically. -/
theorem resolve_deterministic_witness :
    resolveEffective stateConfigured = resolveEffective stateConfiguredAlt ∧
    stateConfigured.testText ≠ stateConfiguredAlt.testText :=
  ⟨resolve_deterministic stateConfigured stateConfiguredAlt rfl rfl, by decide⟩

/-- A completely unconfigured store state. -/
def stateBlank : StoreState := mkState none none ""

/-- Evaluation of C9 at its failing input: from the blank state, writing
`0.7` through the `style` setter and then reading the `style` getter returns
`0`, not `0.7` — the setter stores the value at the record level while the
getter reads `voiceSettings.style`. The sibling `stability` setter, by
contrast, round-trips. -/
theorem style_set_get_mismatch :
    (setStyle 0.7 stateBlank).toOption.map getStyle = some 0 ∧
    (setStyle 0.7 stateBlank).toOption.bind
      (fun t => (t.providers providerId).bind ProviderRecord.style) = some 0.7 ∧
    (setStability 0.7 stateBlank).toOption.map getStability = some 0.7 :=
  ⟨rfl, rfl, rfl⟩

/-- Claim C10: every configuration setter succeeds from any store state —
the guards create the missing provider record and nested `voiceSettings`
object, so the subsequent property assignment never hits a missing object,
and the written location holds the new value afterwards. -/
theorem setters_succeed_from_any_state (s : StoreState) :
    (∀ v, (setApiKey v s).toOption.bind
      (fun t => (t.providers providerId).bind ProviderRecord.apiKey) = some v) ∧
    (∀ v, (setBaseUrl v s).toOption.bind
      (fun t => (t.providers providerId).bind ProviderRecord.baseUrl) = some v) ∧
    (∀ v, (setSimilarityBoost v s).toOption.bind
      (fun t => voiceField t VoiceSettings.similarityBoost) = some v) ∧
    (∀ v, (setStability v s).toOption.bind
      (fun t => voiceField t VoiceSettings.stability) = some v) ∧
    (∀ v, (setSpeed v s).toOption.bind
      (fun t => voiceField t VoiceSettings.speed) = some v) ∧
    (∀ v, (setStyle v s).toOption.bind
      (fun t => (t.providers providerId).bind ProviderRecord.style) = some v) ∧
    (∀ b, (setUseSpeakerBoost b s).toOption.bind
      (fun t => voiceField t VoiceSettings.useSpeakerBoost) = some b) := by
  have hcases : s.providers providerId = none ∨
      (∃ r, s.providers providerId = some r ∧ r.voiceSettings = none) ∨
      (∃ r vs, s.providers providerId = some r ∧ r.voiceSettings = some vs) := by
    rcases hr : s.providers providerId with _ | r
    · exact Or.inl rfl
    · rcases hvs : r.voiceSettings with _ | vs
      · exact Or.inr (Or.inl ⟨r, rfl, hvs⟩)
      · exact Or.inr (Or.inr ⟨r, vs, rfl, hvs⟩)
  refine ⟨?_, ?_, ?_, ?_, ?_, ?_, ?_⟩ <;> intro v <;>
    rcases hcases with hr | ⟨r, hr, hvs⟩ | ⟨r, vs, hr, hvs⟩ <;>
    simp_all [setApiKey, setBaseUrl, setSimilarityBoost, setStability, setSpeed, setStyle,
      setUseSpeakerBoost, ensureRecord, ensureVoiceSettings, assignApiKey, assignBaseUrl,
      assignSimilarityBoost, assignStability, assignSpeed, assignStyleTopLevel,
      assignUseSpeakerBoost, setProviderRecord, emptyRecord, emptyVoiceSettings,
      voiceField, Except.toOption, Except.bind, Option.bind]

/-- On a cache holding no entry, `getInstance` either fails NotConfigured or
hands out the counter as the fresh instance identity. -/
theorem getInstance_on_empty_cache (s : StoreState) (n : Nat) :
    (getInstance s ⟨n, none⟩).1 = none ∨ (getInstance s ⟨n, none⟩).1 = some n := by
  by_cases h : (resolveEffective s).apiKey = "" <;> simp [getInstance, h]

/-- Claim C5: with no intervening configuration change, a second
`getInstance` call returns exactly what the first returned (the cached
instance); and after an update — which invalidates the cache entry — the
next `getInstance` call never returns the previously returned instance. -/
theorem instance_cache_identity (s s2 : StoreState) (c : CacheState) (hwf : CacheWF c) :
    (getInstance s (getInstance s c).2).1 = (getInstance s c).1 ∧
    (∀ i j, (getInstance s c).1 = some i →
      (getInstance s2 (invalidate (getInstance s c).2)).1 = some j → j ≠ i) := by
  by_cases h1 : (resolveEffective s).apiKey = ""
  · constructor
    · simp [getInstance, h1]
    · intro i j hi hj
      simp [getInstance, h1] at hi
  · rcases hc : c.cached with _ | ⟨fp, inst⟩
    · have hfirst : getInstance s c =
          (some c.counter, ⟨c.counter + 1, some (resolveEffective s, c.counter)⟩) := by
        simp [getInstance, h1, hc]
      constructor
      · rw [hfirst]
        simp [getInstance, h1]
      · intro i j hi hj
        rw [hfirst] at hi hj
        simp at hi
        rcases getInstance_on_empty_cache s2 (c.counter + 1) with hnone | hsome
        · rw [show invalidate ⟨c.counter + 1, some (resolveEffective s, c.counter)⟩ =
              (⟨c.counter + 1, none⟩ : CacheState) from rfl] at hj
          rw [hnone] at hj
          exact absurd hj (by simp)
        · rw [show invalidate ⟨c.counter + 1, some (resolveEffective s, c.counter)⟩ =
              (⟨c.counter + 1, none⟩ : CacheState) from rfl] at hj
          rw [hsome] at hj
          simp at hj
          omega
    · by_cases h3 : fp = resolveEffective s
      · have hfirst : getInstance s c = (some inst, c) := by
          simp [getInstance, h1, hc, h3]
        constructor
        · rw [hfirst]
          simp [getInstance, h1, hc, h3]
        · intro i j hi hj
          rw [hfirst] at hi hj
          simp at hi
          have hlt : inst < c.counter := hwf fp inst hc
          rcases getInstance_on_empty_cache s2 c.counter with hnone | hsome
          · rw [show invalidate c = (⟨c.counter, none⟩ : CacheState) from by
                simp [invalidate]] at hj
            rw [hnone] at hj
            exact absurd hj (by simp)
          · rw [show invalidate c = (⟨c.counter, none⟩ : CacheState) from by
                simp [invalidate]] at hj
            rw [hsome] at hj
            simp at hj
            omega
      · have hfirst : getInstance s c =
            (some c.counter, ⟨c.counter + 1, some (resolveEffective s, c.counter)⟩) := by
          simp [getInstance, h1, hc, h3]
        constructor
        · rw [hfirst]
          simp [getInstance, h1]
        · intro i j hi hj
          rw [hfirst] at hi hj
          simp at hi
          rcases getInstance_on_empty_cache s2 (c.counter + 1) with hnone | hsome
          · rw [show invalidate ⟨c.counter + 1, some (resolveEffective s, c.counter)⟩ =
                (⟨c.counter + 1, none⟩ : CacheState) from rfl] at hj
            rw [hnone] at hj
            exact absurd hj (by simp)
          · rw [show invalidate ⟨c.counter + 1, some (resolveEffective s, c.counter)⟩ =
                (⟨c.counter + 1, none⟩ : CacheState) from rfl] at hj
            rw [hsome] at hj
            simp at hj
            omega

/-- Witness for C5: from a cold cache and a configured state, the first call
constructs instance `0`; repeating the call returns the same; after an
update and the invalidation it triggers, the next call returns instance `1`,
distinct from `0`. -/
theorem instance_cache_identity_witness :
    (getInstance stateConfigured (getInstance stateConfigured cacheInitialState).2).1 =
      (getInstance stateConfigured cacheInitialState).1 ∧
    (1 : Nat) ≠ 0 :=
  ⟨(instance_cache_identity stateConfigured stateConfiguredAlt cacheInitialState
      (fun _ _ h => Option.noConfusion h)).1,
   (instance_cache_identity stateConfigured stateConfiguredAlt cacheInitialState
      (fun _ _ h => Option.noConfusion h)).2 0 1 rfl rfl⟩

/-- Witness for C10: from the blank state, the apiKey setter succeeds and
stores the value. -/
theorem setters_succeed_from_any_state_witness :
    (setApiKey "sk-test" stateBlank).toOption.bind
      (fun t => (t.providers providerId).bind ProviderRecord.apiKey) = some "sk-test" :=
  (setters_succeed_from_any_state stateBlank).1 "sk-test"

end Airi
